import Mathlib

/-!
# Verification of the Destinex enrichment-and-ranking pipeline

Shallow embedding of the Destinex backend core (the `AIService` enrichment
functions, the `DatabaseService` cache policy, and the `format_place_data`
pipeline from `app.py`), together with theorems settling the frozen claims
about the natural-language specification.

Conventions of the embedding:
* Python `float` ratings are modelled as `Rat`; every rating the program
  manipulates is an exact multiple of 1/10, so rational arithmetic agrees
  with the decimal values the program displays.
* Python machine-level 32-bit arithmetic (inside MD5 and MT19937) is `Nat`
  with explicit reduction `% 2^32`.
* Python's process-randomized `hash()` for strings is modelled as an
  explicit function parameter `pyHash : String → Nat` (its value is fixed
  within one interpreter process but unknowable statically).
* MongoDB collection state is an association list keyed by the normalized
  city name; `pymongo` calls that may raise are modelled with `Except`,
  and the services' `try/except` blocks are translated explicitly.
-/

set_option maxRecDepth 4000

/-! ## String helpers (Python `in`, `.lower()`, `.strip()`) -/

/-- Python substring test `pat in text`, on explicit character lists:
`hasInfixList pat text` is true iff `pat` occurs contiguously in `text`
(the empty pattern occurs in every text, as in Python). -/
def hasInfixList (pat : List Char) : List Char → Bool
  | [] => pat.isEmpty
  | c :: rest => pat.isPrefixOf (c :: rest) || hasInfixList pat rest

/-- Python `pat in text` for strings. -/
def strHasSub (text pat : String) : Bool :=
  hasInfixList pat.toList text.toList

/-- Python `s.lower()`, character by character (agrees with CPython on the
ASCII letters, the only ones the keyword tables contain). -/
def pyLower (s : String) : String := String.mk (s.toList.map Char.toLower)

/-- Python `s.strip()`: drop leading and trailing whitespace. -/
def pyStrip (s : String) : String :=
  String.mk (((s.toList.dropWhile Char.isWhitespace).reverse.dropWhile
    Char.isWhitespace).reverse)

/-- Python `s.endswith(suffix)`. -/
def strEndsWith (s suf : String) : Bool := suf.toList.isSuffixOf s.toList

/-- Python `any(keyword in text for keyword in kws)`. -/
def anyKeyword (kws : List String) (text : String) : Bool :=
  kws.any (fun k => strHasSub text k)

/-! ## `AIService` keyword tables (services/ai_service.py) -/

def LUXURY_KEYWORDS : List String :=
  ["luxury", "premium", "5-star", "five star", "resort", "palace",
   "heritage", "boutique", "fine dining", "rooftop", "spa", "golf",
   "marriott", "taj", "hyatt", "hilton", "oberoi", "itc", "leela",
   "expensive", "high-end", "exclusive", "private", "suite"]

def BUDGET_KEYWORDS : List String :=
  ["budget", "cheap", "economy", "hostel", "backpacker", "dhaba",
   "street food", "cafe", "inexpensive", "affordable", "low-cost",
   "zostel", "free", "complimentary", "no charge"]

def MODERATE_KEYWORDS : List String :=
  ["mid-range", "moderate", "3-star", "three star", "comfortable",
   "decent", "reasonable", "standard", "regular", "casual"]

/-- `AIService.estimate_price_range`: keyword precedence on the lowercased
`name + ' ' + kinds` text, then a rating-threshold fallback. -/
def estimate_price_range (name kinds : String) (rating : Rat) : String :=
  let text := pyLower (name ++ " " ++ kinds)
  if anyKeyword LUXURY_KEYWORDS text then "₹₹₹"
  else if anyKeyword BUDGET_KEYWORDS text then "₹"
  else if anyKeyword MODERATE_KEYWORDS text then "₹₹"
  else if rating ≥ (4.5 : Rat) then "₹₹₹"
  else if rating ≥ (4 : Rat) then "₹₹"
  else "₹"

/-! ## `AIService` classifiers -/

/-- `AIService.categorize_attraction_type`. -/
def categorize_attraction_type (kinds : String) : String :=
  let kinds_lower := pyLower kinds
  if anyKeyword ["historic", "cultural", "architecture", "monument", "museum", "fort", "palace"] kinds_lower then "historic"
  else if anyKeyword ["natural", "park", "garden", "beach", "mountain", "lake", "nature"] kinds_lower then "nature"
  else if anyKeyword ["religion", "temple", "church", "mosque", "gurdwara", "shrine", "spiritual"] kinds_lower then "religious"
  else if anyKeyword ["amusement", "entertainment", "zoo", "aquarium", "theater", "cinema"] kinds_lower then "entertainment"
  else "default"

/-- `AIService.categorize_hotel_type`. -/
def categorize_hotel_type (name kinds : String) : String :=
  let text := pyLower (name ++ " " ++ kinds)
  if anyKeyword ["luxury", "premium", "5-star", "resort", "palace", "spa"] text then "luxury"
  else if anyKeyword ["boutique", "heritage", "charming", "unique"] text then "boutique"
  else if anyKeyword ["hostel", "budget", "economy", "cheap"] text then "budget"
  else "default"

/-- `AIService.categorize_restaurant_type`. -/
def categorize_restaurant_type (name kinds : String) : String :=
  let text := pyLower (name ++ " " ++ kinds)
  if anyKeyword ["fine dining", "gourmet", "luxury", "premium", "5-star"] text then "fine_dining"
  else if anyKeyword ["street food", "fast food", "food court", "stall"] text then "street_food"
  else if anyKeyword ["cafe", "casual", "bistro", "diner"] text then "casual"
  else "default"

/-! Spec-side view of classification as an ordered rule table. -/

/-- First-match-wins evaluation of an ordered (label, keyword-set) rule
table, falling through to `"default"`; this is the spec's description of
the classifiers, to be compared with the if/elif chains above. -/
def firstMatch (rules : List (String × List String)) (text : String) : String :=
  match rules with
  | [] => "default"
  | (lbl, kws) :: rest => if anyKeyword kws text then lbl else firstMatch rest text

def attractionRules : List (String × List String) :=
  [("historic", ["historic", "cultural", "architecture", "monument", "museum", "fort", "palace"]),
   ("nature", ["natural", "park", "garden", "beach", "mountain", "lake", "nature"]),
   ("religious", ["religion", "temple", "church", "mosque", "gurdwara", "shrine", "spiritual"]),
   ("entertainment", ["amusement", "entertainment", "zoo", "aquarium", "theater", "cinema"])]

def hotelRules : List (String × List String) :=
  [("luxury", ["luxury", "premium", "5-star", "resort", "palace", "spa"]),
   ("boutique", ["boutique", "heritage", "charming", "unique"]),
   ("budget", ["hostel", "budget", "economy", "cheap"])]

def restaurantRules : List (String × List String) :=
  [("fine_dining", ["fine dining", "gourmet", "luxury", "premium", "5-star"]),
   ("street_food", ["street food", "fast food", "food court", "stall"]),
   ("casual", ["cafe", "casual", "bistro", "diner"])]

/-- Modelled from the spec: the source has one classifier per place kind
(`categorize_attraction_type` / `categorize_hotel_type` /
`categorize_restaurant_type`) but no unified dispatcher; the spec's §4.1
contract `classify(place_kind, name, tags)` with `"default"` for unknown
place kinds is reconstructed here on top of the three source classifiers. -/
def classify (place_kind name tags : String) : String :=
  if place_kind = "attraction" then categorize_attraction_type tags
  else if place_kind = "hotel" then categorize_hotel_type name tags
  else if place_kind = "restaurant" then categorize_restaurant_type name tags
  else "default"

/-- The rule table the spec prescribes for each place kind (empty for an
unknown kind, making `firstMatch` fall through to `"default"`). -/
def rulesFor (place_kind : String) : List (String × List String) :=
  if place_kind = "attraction" then attractionRules
  else if place_kind = "hotel" then hotelRules
  else if place_kind = "restaurant" then restaurantRules
  else []

/-- The text each classifier scans: category tags alone for attractions,
name and tags for hotels and restaurants. -/
def textFor (place_kind name tags : String) : String :=
  if place_kind = "attraction" then pyLower tags
  else pyLower (name ++ " " ++ tags)

/-- The closed label set of each place kind (labels of its rule table plus
`"default"`). -/
def labelSet (place_kind : String) : List String :=
  (rulesFor place_kind).map Prod.fst ++ ["default"]

/-! ## MD5 (hashlib.md5), used by `generate_rating`

Full executable MD5 over the UTF-8 bytes of the name, translated from the
reference algorithm (RFC 1321): little-endian word packing, 64 rounds per
512-bit block, digest rendered as the usual byte sequence.  All 32-bit
arithmetic is `Nat` reduced mod `2^32`. -/

/-- Reduce to a 32-bit word. -/
def u32 (n : Nat) : Nat := n % 4294967296

/-- 32-bit left rotation (operand assumed `< 2^32`). -/
def rotl32 (x n : Nat) : Nat := u32 (x <<< n) ||| (x >>> (32 - n))

/-- UTF-8 encoding of one scalar value (Python `str.encode()`). -/
def utf8Bytes (c : Char) : List Nat :=
  let n := c.toNat
  if n < 0x80 then [n]
  else if n < 0x800 then [0xC0 ||| (n >>> 6), 0x80 ||| (n &&& 0x3F)]
  else if n < 0x10000 then
    [0xE0 ||| (n >>> 12), 0x80 ||| ((n >>> 6) &&& 0x3F), 0x80 ||| (n &&& 0x3F)]
  else
    [0xF0 ||| (n >>> 18), 0x80 ||| ((n >>> 12) &&& 0x3F),
     0x80 ||| ((n >>> 6) &&& 0x3F), 0x80 ||| (n &&& 0x3F)]

/-- UTF-8 bytes of a string. -/
def strBytes (s : String) : List Nat :=
  s.toList.foldr (fun c acc => utf8Bytes c ++ acc) []

/-- Split a list into chunks of `n` (fuel-based; fuel `l.length` suffices). -/
def chunksAux (fuel n : Nat) (l : List α) : List (List α) :=
  match fuel, l with
  | 0, _ => []
  | _, [] => []
  | f + 1, l => l.take n :: chunksAux f n (l.drop n)

def chunks (n : Nat) (l : List α) : List (List α) := chunksAux l.length n l

/-- MD5 round constants `K[i] = ⌊|sin(i+1)| · 2^32⌋`. -/
def md5K : List Nat :=
  [3614090360, 3905402710, 606105819, 3250441966, 4118548399, 1200080426,
   2821735955, 4249261313, 1770035416, 2336552879, 4294925233, 2304563134,
   1804603682, 4254626195, 2792965006, 1236535329, 4129170786, 3225465664,
   643717713, 3921069994, 3593408605, 38016083, 3634488961, 3889429448,
   568446438, 3275163606, 4107603335, 1163531501, 2850285829, 4243563512,
   1735328473, 2368359562, 4294588738, 2272392833, 1839030562, 4259657740,
   2763975236, 1272893353, 4139469664, 3200236656, 681279174, 3936430074,
   3572445317, 76029189, 3654602809, 3873151461, 530742520, 3299628645,
   4096336452, 1126891415, 2878612391, 4237533241, 1700485571, 2399980690,
   4293915773, 2240044497, 1873313359, 4264355552, 2734768916, 1309151649,
   4149444226, 3174756917, 718787259, 3951481745]

/-- MD5 per-round shift amounts. -/
def md5S : List Nat :=
  [7, 12, 17, 22, 7, 12, 17, 22, 7, 12, 17, 22, 7, 12, 17, 22,
   5, 9, 14, 20, 5, 9, 14, 20, 5, 9, 14, 20, 5, 9, 14, 20,
   4, 11, 16, 23, 4, 11, 16, 23, 4, 11, 16, 23, 4, 11, 16, 23,
   6, 10, 15, 21, 6, 10, 15, 21, 6, 10, 15, 21, 6, 10, 15, 21]

/-- MD5 padding: append `0x80`, zero-fill to 56 mod 64, then the original
bit length as 8 little-endian bytes. -/
def md5Pad (msg : List Nat) : List Nat :=
  let bitLen := 8 * msg.length
  let zeros := (119 - msg.length % 64) % 64
  msg ++ [0x80] ++ List.replicate zeros 0 ++
    (List.range 8).map (fun i => (bitLen >>> (8 * i)) &&& 0xFF)

/-- Pack 4 little-endian bytes into a 32-bit word. -/
def wordOfBytes (b : List Nat) : Nat :=
  b.getD 0 0 + 256 * b.getD 1 0 + 65536 * b.getD 2 0 + 16777216 * b.getD 3 0

/-- One MD5 round `i` (0 ≤ i < 64) on state `(A,B,C,D)` with message words `M`. -/
def md5Round (M : List Nat) (st : Nat × Nat × Nat × Nat) (i : Nat) :
    Nat × Nat × Nat × Nat :=
  let (A, B, C, D) := st
  let Fg :=
    if i < 16 then ((B &&& C) ||| ((B ^^^ 0xFFFFFFFF) &&& D), i)
    else if i < 32 then ((D &&& B) ||| ((D ^^^ 0xFFFFFFFF) &&& C), (5 * i + 1) % 16)
    else if i < 48 then (B ^^^ C ^^^ D, (3 * i + 5) % 16)
    else (C ^^^ (B ||| (D ^^^ 0xFFFFFFFF)), (7 * i) % 16)
  let F := u32 (Fg.1 + A + md5K.getD i 0 + M.getD Fg.2 0)
  (D, u32 (B + rotl32 F (md5S.getD i 0)), B, C)

/-- Process one 64-byte block. -/
def md5Block (st : Nat × Nat × Nat × Nat) (block : List Nat) :
    Nat × Nat × Nat × Nat :=
  let M := (chunks 4 block).map wordOfBytes
  let r := (List.range 64).foldl (md5Round M) st
  (u32 (st.1 + r.1), u32 (st.2.1 + r.2.1), u32 (st.2.2.1 + r.2.2.1),
   u32 (st.2.2.2 + r.2.2.2))

/-- MD5 digest of a byte sequence, as the 16 digest bytes. -/
def md5Digest (msg : List Nat) : List Nat :=
  let init : Nat × Nat × Nat × Nat := (0x67452301, 0xefcdab89, 0x98badcfe, 0x10325476)
  let f := (chunks 64 (md5Pad msg)).foldl md5Block init
  [f.1, f.2.1, f.2.2.1, f.2.2.2].foldr
    (fun w acc => (List.range 4).map (fun i => (w >>> (8 * i)) &&& 0xFF) ++ acc) []

/-- Python `int(hashlib.md5(name.encode()).hexdigest(), 16)`: the digest
bytes read as one big-endian 128-bit integer. -/
def md5Int (name : String) : Nat :=
  (md5Digest (strBytes name)).foldl (fun acc b => acc * 256 + b) 0

/-! ## `AIService.generate_rating` -/

/-- Python 3 `round(q, 1)` on our exact rationals: round half-to-even at
one decimal.  (The real Python rounds binary doubles; every value fed to
it here is an exact multiple of 1/10 in our rational model, on which this
function is the identity.) -/
def pyRound1 (q : Rat) : Rat :=
  let f : Int := (q * 10).floor
  let r : Rat := q * 10 - f
  let n : Int :=
    if r < 1/2 then f
    else if 1/2 < r then f + 1
    else if f % 2 = 0 then f else f + 1
  (n : Rat) / 10

/-- `AIService.generate_rating`: `3.5 + ((md5(name) mod 16) / 10)`, rounded
to 1 decimal. -/
def generate_rating (name : String) : Rat :=
  let variance : Rat := ((md5Int name % 16 : Nat) : Rat) / 10
  pyRound1 ((3.5 : Rat) + variance)

/-- The 16 discrete rating values `{3.5, 3.6, ..., 5.0}`. -/
def ratingValues : List Rat :=
  [3.5, 3.6, 3.7, 3.8, 3.9, 4.0, 4.1, 4.2, 4.3, 4.4, 4.5, 4.6, 4.7, 4.8, 4.9, 5.0]


/-! ## MT19937 (Python's `random` module), used by `generate_insight`

`generate_insight` re-seeds Python's global Mersenne Twister with
`hash(name) % 10000` and then draws one `random.choice`.  The twister is
implemented here exactly (init_by_array seeding as in CPython's
`random.seed(int)`, the twist, tempering, and `_randbelow`'s rejection
loop); the 624-word state is packed into a single `Nat`, word `i` being
bits `[32*i, 32*i+32)`. -/

/-- Strict left fold: the accumulator is forced to a value at every step
through the trivially-true guard on `φ v` (the C and Python loops being
translated are strict, and this keeps kernel reduction of concrete states
shallow).  `sfoldl_eq_foldl` below proves it equal to `List.foldl`. -/
def sfoldl (φ : α → Nat) (f : α → β → α) : List β → α → α
  | [], st => st
  | a :: rest, st =>
    let v := f st a
    if φ v = φ v then sfoldl φ f rest v else v


/-- Forcing projection for a packed-state/counter pair. -/
def φ2 (p : Nat × Nat) : Nat := p.1 + p.2

/-- Forcing projection for a packed-state/counter/counter triple. -/
def φ3 (p : Nat × Nat × Nat) : Nat := p.1 + p.2.1 + p.2.2

/-- Word `i` of a packed MT19937 state. -/
def mtGetW (s i : Nat) : Nat := (s >>> (32 * i)) &&& 0xFFFFFFFF

/-- Replace word `i` of a packed MT19937 state. -/
def mtSetW (s i v : Nat) : Nat := s - (mtGetW s i <<< (32 * i)) + (u32 v <<< (32 * i))

/-- `init_genrand` (mt19937ar): fill the state from a 32-bit seed. -/
def mtInitGenrand (seed : Nat) : Nat :=
  sfoldl id
    (fun st i =>
      let prev := mtGetW st i
      mtSetW st (i + 1) (u32 (1812433253 * (prev ^^^ (prev >>> 30)) + (i + 1))))
    (List.range 623) (u32 seed)

/-- First mixing pass of `init_by_array`; the fold state is (packed state, i, j). -/
def mtIbaStep1 (key : List Nat) (p : Nat × Nat × Nat) (_ : Nat) : Nat × Nat × Nat :=
  let st := p.1
  let i := p.2.1
  let j := p.2.2
  let prev := mtGetW st (i - 1)
  let x := mtGetW st i ^^^ u32 ((prev ^^^ (prev >>> 30)) * 1664525)
  let st := mtSetW st i (u32 (x + key.getD j 0 + j))
  let i := i + 1
  let st := if i ≥ 624 then mtSetW st 0 (mtGetW st 623) else st
  let i := if i ≥ 624 then 1 else i
  let j := if j + 1 ≥ key.length then 0 else j + 1
  (st, i, j)

/-- Second mixing pass of `init_by_array`; the fold state is (packed state, i). -/
def mtIbaStep2 (p : Nat × Nat) (_ : Nat) : Nat × Nat :=
  let st := p.1
  let i := p.2
  let prev := mtGetW st (i - 1)
  let x := mtGetW st i ^^^ u32 ((prev ^^^ (prev >>> 30)) * 1566083941)
  let st := mtSetW st i ((x + 4294967296 - i % 4294967296) % 4294967296)
  let i := i + 1
  let st := if i ≥ 624 then mtSetW st 0 (mtGetW st 623) else st
  let i := if i ≥ 624 then 1 else i
  (st, i)

/-- `init_by_array` (mt19937ar), the seeding routine CPython's
`random.seed(int)` uses with the integer's 32-bit words as key. -/
def mtInitByArray (key : List Nat) : Nat :=
  let st := mtInitGenrand 19650218
  let p := sfoldl φ3 (mtIbaStep1 key) (List.range (max 624 key.length)) (st, 1, 0)
  let q := sfoldl φ2 mtIbaStep2 (List.range 623) (p.1, p.2.1)
  mtSetW q.1 0 0x80000000

/-- One in-place step of the MT19937 twist at position `kk`. -/
def mtTwistStep (st kk : Nat) : Nat :=
  let y := (mtGetW st kk &&& 0x80000000) ||| (mtGetW st ((kk + 1) % 624) &&& 0x7FFFFFFF)
  mtSetW st kk
    (mtGetW st ((kk + 397) % 624) ^^^ (y >>> 1) ^^^ (if y % 2 = 1 then 0x9908b0df else 0))

/-- Regenerate all 624 words (the MT19937 twist). -/
def mtTwist (st : Nat) : Nat := sfoldl id mtTwistStep (List.range 624) st

/-- MT19937 output tempering. -/
def mtTemper (x : Nat) : Nat :=
  let y := x ^^^ (x >>> 11)
  let y := y ^^^ (u32 (y <<< 7) &&& 0x9d2c5680)
  let y := y ^^^ (u32 (y <<< 15) &&& 0xefc60000)
  y ^^^ (y >>> 18)

/-- Generator state: packed word array plus extraction index (CPython sets
the index to 624 after seeding, forcing a twist on the first draw). -/
structure MTGen where
  st : Nat
  idx : Nat

/-- Draw one 32-bit output. -/
def mtNext (m : MTGen) : Nat × MTGen :=
  let m := if m.idx ≥ 624 then MTGen.mk (mtTwist m.st) 0 else m
  (mtTemper (mtGetW m.st m.idx), MTGen.mk m.st (m.idx + 1))

/-- Python `n.bit_length()` (fuel-based so that it kernel-reduces). -/
def bitLenAux : Nat → Nat → Nat
  | 0, _ => 0
  | fuel + 1, n => if n = 0 then 0 else bitLenAux fuel (n / 2) + 1

/-- Python `n.bit_length()`. -/
def bitLength (n : Nat) : Nat := bitLenAux n n

/-- The 32-bit little-endian words of a nonnegative seed (CPython's
`random.seed(int)` key; the key for 0 is `[0]`). -/
def seedWords (n : Nat) : List Nat :=
  if n = 0 then [0]
  else (List.range ((bitLength n - 1) / 32 + 1)).map (fun i => mtGetW n i)

/-- `random.seed(n)` for a nonnegative int `n`. -/
def pySeed (n : Nat) : MTGen := MTGen.mk (mtInitByArray (seedWords n)) 624

/-- `random.getrandbits(k)` for `0 < k ≤ 32`: top `k` bits of one output. -/
def pyGetrandbits (m : MTGen) (k : Nat) : Nat × MTGen :=
  let r := mtNext m
  (r.1 >>> (32 - k), r.2)

/-- The rejection loop of `random._randbelow(n)`: redraw `k`-bit values
until one is `< n`.  CPython's loop is unbounded; it is given fuel here
and returns 0 (still `< n`) if the fuel runs out, which no concrete seed
below ever hits. -/
def randbelowLoop : Nat → MTGen → Nat → Nat → Nat
  | 0, _, _, _ => 0
  | fuel + 1, m, n, k =>
    let r := pyGetrandbits m k
    if r.1 < n then r.1 else randbelowLoop fuel r.2 n k

/-- `random._randbelow(n)` right after `random.seed(seed)`, for `n > 0`. -/
def pyRandbelow (seed n : Nat) : Nat :=
  randbelowLoop 64 (pySeed seed) n (bitLength n)

/-- `random.choice(pool)` right after `random.seed(seed)`. -/
def pyChoice (seed : Nat) (pool : List String) : String :=
  pool.getD (pyRandbelow seed pool.length) ""

/-! ## `AIService` insight templates and `generate_insight` -/

def ATTRACTION_INSIGHTS : List (String × List String) :=
  [("historic",
    ["Rich in history and culture. Best visited with a guide to fully appreciate the stories.",
     "A testament to the region's glorious past. Don't miss the architectural details.",
     "Step back in time and experience the heritage of this magnificent site."]),
   ("nature",
    ["Perfect escape from city life. Visit early morning for the best experience.",
     "Breathtaking natural beauty. Ideal for photography enthusiasts.",
     "A peaceful retreat surrounded by nature's finest offerings."]),
   ("religious",
    ["Spiritual ambiance that brings peace and tranquility. Dress modestly.",
     "Important pilgrimage site with deep cultural significance.",
     "Experience the divine atmosphere and architectural grandeur."]),
   ("entertainment",
    ["Great place for fun and entertainment with family and friends.",
     "Vibrant atmosphere with plenty of activities for all ages.",
     "Perfect spot to unwind and enjoy leisure time."]),
   ("default",
    ["Popular destination loved by locals and tourists alike.",
     "Worth a visit when exploring the city. Check reviews for best times.",
     "A must-see attraction that captures the essence of the city."])]

def HOTEL_INSIGHTS : List (String × List String) :=
  [("luxury",
    ["World-class amenities and impeccable service for a memorable stay.",
     "Indulge in luxury with stunning views and premium facilities.",
     "Perfect blend of comfort and elegance for discerning travelers."]),
   ("boutique",
    ["Charming property with unique character and personalized service.",
     "Intimate setting with attention to every detail.",
     "Experience local hospitality in a cozy, well-appointed space."]),
   ("budget",
    ["Great value for money with all essential amenities.",
     "Clean and comfortable accommodation without breaking the bank.",
     "Perfect for budget travelers and backpackers."]),
   ("default",
    ["Convenient location with good amenities for a comfortable stay.",
     "Well-rated property offering reliable hospitality.",
     "Good choice for both business and leisure travelers."])]

def RESTAURANT_INSIGHTS : List (String × List String) :=
  [("fine_dining",
    ["Exquisite culinary experience with impeccable presentation and service.",
     "Perfect for special occasions with an elegant ambiance.",
     "Mouthwatering dishes crafted by skilled chefs using premium ingredients."]),
   ("casual",
    ["Relaxed atmosphere with delicious food at reasonable prices.",
     "Great spot for a casual meal with friends and family.",
     "Consistently good food with friendly service."]),
   ("street_food",
    ["Authentic local flavors that shouldn't be missed.",
     "Popular among locals - a true taste of the city's culinary culture.",
     "Delicious and affordable - perfect for food adventurers."]),
   ("default",
    ["Well-loved eatery serving tasty dishes in a welcoming setting.",
     "Good food, good vibes - a reliable choice for any meal.",
     "Recommended by locals for its quality and consistency."])]

/-- Python `TABLE.get(key, TABLE['default'])`: look a label up in an
insight dictionary, falling back to its `'default'` pool. -/
def insightsGet (table : List (String × List String)) (key : String) : List String :=
  match table.find? (fun kv => kv.1 = key) with
  | some kv => kv.2
  | none =>
    match table.find? (fun kv => kv.1 = "default") with
    | some kv => kv.2
    | none => []

/-- The template pool `generate_insight` selects for a known category
(`insights` in the source); meaningless for other categories. -/
def insightPool (name category kinds : String) : List String :=
  if category = "attractions" then
    insightsGet ATTRACTION_INSIGHTS (categorize_attraction_type kinds)
  else if category = "hotels" then
    insightsGet HOTEL_INSIGHTS (categorize_hotel_type name kinds)
  else
    insightsGet RESTAURANT_INSIGHTS (categorize_restaurant_type name kinds)

/-- The rating suffix appended at the end of `generate_insight`. -/
def ratingSuffix (rating : Rat) : String :=
  if rating ≥ (4.5 : Rat) then " Highly rated by visitors!"
  else if rating ≥ (4 : Rat) then " Well-loved by travelers."
  else ""

/-- `AIService.generate_insight`.  The source seeds Python's global RNG
with `hash(name) % 10000` and draws one `random.choice` from the selected
pool; `pyHash` stands for the process's string-hash function. -/
def generate_insight (pyHash : String → Nat) (name category kinds : String)
    (rating : Rat) : String :=
  let seed := pyHash name % 10000
  if category = "attractions" ∨ category = "hotels" ∨ category = "restaurants" then
    pyChoice seed (insightPool name category kinds) ++ ratingSuffix rating
  else
    "A great place to visit and explore."

/-! ## `AIService.rank_places`

Python's `sorted(places, key=..., reverse=True)` is a stable sort put in
non-increasing key order.  The key is the pair
`(x.get('rating', 0), x.get('review_count', 0))` compared lexicographically;
`rank_places` is polymorphic in the record type (Python dicts), taking the
key projection as argument. -/

/-- Lexicographic `≤` on `(rating, review_count)` keys. -/
def keyLE (x y : Rat × Nat) : Bool :=
  x.1 < y.1 ∨ (x.1 = y.1 ∧ x.2 ≤ y.2)

/-- `AIService.rank_places`: stable sort, descending by key.  An element
goes before another exactly when its key is `≥`; a stable merge sort with
this total preorder is what CPython's `sorted(..., reverse=True)` does. -/
def rank_places (key : α → Rat × Nat) (places : List α) : List α :=
  places.mergeSort (fun a b => keyLE (key b) (key a))

/-! ## `DatabaseService` cache (services/db_service.py)

The `city_cache` collection is an association list from the normalized
city name to a stored document; `cached_at` is an `Option Int` UTC
timestamp in seconds (`none` models a document missing the field).  The
`pymongo` calls may raise; that is modelled by an `ok : Bool` flag turning
`find_one`/`update_one` into `Except` values, and the services'
`try`/`except` handlers are translated as `match` on those. -/

/-- A stored cache document (`city_name` is the association-list key). -/
structure CacheDoc (α : Type) where
  data : α
  cached_at : Option Int
  deriving DecidableEq, Repr

/-- Seconds in `timedelta(hours=24)`. -/
def ttlSeconds : Int := 86400

/-- Python `city_name.lower().strip()`. -/
def normalizeCity (city : String) : String := pyStrip (pyLower city)

/-- Association-list lookup, as `find_one({'city_name': key})`. -/
def lookupDoc (store : List (String × CacheDoc α)) (key : String) :
    Option (CacheDoc α) :=
  match store.find? (fun kv => kv.1 = key) with
  | some kv => some kv.2
  | none => none

/-- `find_one` against a store that may raise (`ok = false`). -/
def find_one (ok : Bool) (store : List (String × CacheDoc α)) (key : String) :
    Except Unit (Option (CacheDoc α)) :=
  if ok then .ok (lookupDoc store key) else .error ()

/-- Unique-key upsert, as `update_one({'city_name': key}, {'$set': entry},
upsert=True)` under the collection's unique index on `city_name`. -/
def upsertDoc (store : List (String × CacheDoc α)) (key : String)
    (doc : CacheDoc α) : List (String × CacheDoc α) :=
  match store with
  | [] => [(key, doc)]
  | kv :: rest =>
    if kv.1 = key then (key, doc) :: rest else kv :: upsertDoc rest key doc

/-- `update_one(..., upsert=True)` against a store that may raise. -/
def update_one (ok : Bool) (store : List (String × CacheDoc α)) (key : String)
    (doc : CacheDoc α) : Except Unit (List (String × CacheDoc α)) :=
  if ok then .ok (upsertDoc store key doc) else .error ()

/-- `DatabaseService.get_cached_data`.  `now` is `datetime.utcnow()` at
read time.  Returns the stored payload on a fresh hit (or a hit with no
`cached_at`), and `none` on a miss, an expired entry, or a read error. -/
def get_cached_data (ok : Bool) (store : List (String × CacheDoc α))
    (now : Int) (city : String) : Option α :=
  match find_one ok store (normalizeCity city) with
  | .error () => none
  | .ok none => none
  | .ok (some cached) =>
    match cached.cached_at with
    | some t => if now - t < ttlSeconds then some cached.data else none
    | none => some cached.data

/-- `DatabaseService.cache_data`.  `now` is `datetime.utcnow()` at write
time.  A write error is swallowed and leaves the store unchanged; the
call always returns normally. -/
def cache_data (ok : Bool) (store : List (String × CacheDoc α))
    (now : Int) (city : String) (data : α) : List (String × CacheDoc α) :=
  match update_one ok store (normalizeCity city)
      (CacheDoc.mk data (some now)) with
  | .ok store2 => store2
  | .error () => store

/-- `DatabaseService.clear_cache`: `delete_one` for a given city (the
unique index guarantees at most one match), `delete_many({})` for all. -/
def clear_cache (ok : Bool) (store : List (String × CacheDoc α))
    (city : Option String) : List (String × CacheDoc α) :=
  if ok then
    match city with
    | some c => store.eraseP (fun kv => kv.1 = normalizeCity c)
    | none => []
  else store

/-- One service call against the cache store, as a state transition: the
pair is (store after the call, payload returned if it was a read).  The
read transition returns the store it was given: `get_cached_data` only
performs `find_one`, so a read never deletes or modifies stored entries. -/
def cacheRead (ok : Bool) (store : List (String × CacheDoc α))
    (now : Int) (city : String) : List (String × CacheDoc α) × Option α :=
  (store, get_cached_data ok store now city)

/-! ## Raw places (services/place_service.py) and the `format_place_data`
pipeline (app.py) -/

/-- A raw place dict as built inside
`PlaceService.fetch_places_from_geoapify` (a missing name is modelled as
`""`, which is exactly the Python falsiness test used to skip records). -/
structure RawPlace where
  name : String
  kinds : String
  rating : Rat
  distance : Rat
  lat : Option Rat
  lon : Option Rat
  deriving DecidableEq, Repr

/-- The fields of one Geoapify feature's `properties` that the service
reads (after its own distance computation). -/
structure GeoProps where
  name : String
  categories : List String
  distance : Rat
  lat : Option Rat
  lon : Option Rat
  deriving DecidableEq, Repr

/-- The per-feature body of `fetch_places_from_geoapify`: skip unnamed
features, join the categories into `kinds`, and set `rating` to 0
(Geoapify's free tier returns no ratings). -/
def fetchPlaceOfFeature (props : GeoProps) : Option RawPlace :=
  if props.name = "" then none
  else some (RawPlace.mk props.name (String.intercalate "," props.categories)
    0 props.distance props.lat props.lon)

/-- An enriched place record as built by `format_place_data`. -/
structure FormattedPlace where
  name : String
  category : String
  rating : Rat
  price_range : String
  ai_insight : String
  distance : Rat
  lat : Option Rat
  lon : Option Rat
  deriving DecidableEq, Repr

/-- The per-place body of `format_place_data`'s loop: insight and price
range are computed from the raw place's fields (including its raw
`rating`), and only then is the procedural `generate_rating` stored. -/
def formatOne (pyHash : String → Nat) (category : String) (place : RawPlace) :
    FormattedPlace :=
  { name := place.name
    category := if strEndsWith category "s" then category.dropRight 1 else category
    rating := generate_rating place.name
    price_range := estimate_price_range place.name place.kinds place.rating
    ai_insight := generate_insight pyHash place.name category place.kinds place.rating
    distance := place.distance
    lat := place.lat
    lon := place.lon }

/-- `app.format_place_data`: format every named raw place, then rank.  The
ranking key of a formatted dict is `(rating, 0)`: it has a `'rating'` key
but never a `'review_count'` key, so the latter defaults to 0. -/
def format_place_data (pyHash : String → Nat) (raw_places : List RawPlace)
    (category : String) : List FormattedPlace :=
  rank_places (fun p => (p.rating, 0))
    (raw_places.filterMap (fun place =>
      if place.name = "" then none else some (formatOne pyHash category place)))

/-! ## Helper lemmas -/

theorem sfoldl_eq_foldl (φ : α → Nat) (f : α → β → α) :
    ∀ (l : List β) (st : α), sfoldl φ f l st = l.foldl f st := by
  intro l
  induction l with
  | nil => intro st; rfl
  | cons a rest ih => intro st; simp [sfoldl, List.foldl, ih]

/-- MD5 sanity anchor: the digest of the empty string. -/
theorem md5Int_empty_anchor :
    md5Int "" = 0xd41d8cd98f00b204e9800998ecf8427e := by decide

/-- MD5 sanity anchor: the RFC 1321 test digest of `"abc"`. -/
theorem md5Int_abc_anchor :
    md5Int "abc" = 0x900150983cd24fb0d6963f7d28e17f72 := by decide

/-- MD5 sanity anchor at the padding boundary (56 bytes, where the length
words spill into an extra block). -/
theorem md5Int_pad_boundary_anchor :
    md5Int "aaaaaaaaaaaaaaaaaaaaaaaaaaaaaaaaaaaaaaaaaaaaaaaaaaaaaaaa"
      = 0x3b0c8ac703f828b04c6c197006d17218 := by decide

/-- `firstMatch` always answers with a rule label or `"default"`. -/
theorem firstMatch_mem (rules : List (String × List String)) (text : String) :
    firstMatch rules text ∈ rules.map Prod.fst ++ ["default"] := by
  induction rules with
  | nil => simp [firstMatch]
  | cons r rest ih =>
    obtain ⟨lbl, kws⟩ := r
    by_cases h : anyKeyword kws text
    · simp [firstMatch, h]
    · simp only [firstMatch, h]
      simp only [List.map_cons, List.cons_append, List.mem_cons]
      exact Or.inr (by simpa using ih)

/-- `firstMatch` answers `"default"` when no rule's keyword set matches. -/
theorem firstMatch_eq_default (rules : List (String × List String)) (text : String)
    (h : ∀ r ∈ rules, anyKeyword r.2 text = false) :
    firstMatch rules text = "default" := by
  induction rules with
  | nil => rfl
  | cons r rest ih =>
    obtain ⟨lbl, kws⟩ := r
    have h0 : anyKeyword kws text = false := h (lbl, kws) (by simp)
    simp only [firstMatch, h0, Bool.false_eq_true, if_false]
    exact ih (fun r hr => h r (List.mem_cons_of_mem _ hr))

/-- The rejection loop of `_randbelow` only returns values below `n`. -/
theorem randbelowLoop_lt (fuel : Nat) :
    ∀ (m : MTGen) (n k : Nat), 0 < n → randbelowLoop fuel m n k < n := by
  induction fuel with
  | zero => intro m n k hn; simpa [randbelowLoop] using hn
  | succ f ih =>
    intro m n k hn
    simp only [randbelowLoop]
    split
    · assumption
    · exact ih _ n k hn

/-- `_randbelow` only returns values below `n`. -/
theorem pyRandbelow_lt (seed n : Nat) (hn : 0 < n) : pyRandbelow seed n < n :=
  randbelowLoop_lt 64 _ n _ hn

/-- `random.choice` picks an element of a nonempty pool. -/
theorem pyChoice_mem (seed : Nat) (pool : List String) (h : pool ≠ []) :
    pyChoice seed pool ∈ pool := by
  have hlen : 0 < pool.length := List.length_pos.mpr h
  have hlt : pyRandbelow seed pool.length < pool.length := pyRandbelow_lt _ _ hlen
  simp only [pyChoice]
  rw [List.getD_eq_getElem pool "" hlt]
  exact List.getElem_mem hlt

/-! ## Claim C2: price estimation precedence -/

/-- C2: `estimate_price_range` always returns one of the three symbols,
decided by first-match precedence on the lowercased `name + ' ' + kinds`
text: a luxury keyword forces `"₹₹₹"` over every other rule; otherwise a
budget keyword gives `"₹"`; otherwise a moderate keyword gives `"₹₹"`;
otherwise the rating fallback applies with thresholds 4.5 and 4.0. -/
theorem spec_C2_price_precedence (name kinds : String) (rating : Rat) :
    estimate_price_range name kinds rating ∈ ["₹", "₹₹", "₹₹₹"]
    ∧ (anyKeyword LUXURY_KEYWORDS (pyLower (name ++ " " ++ kinds)) = true →
        estimate_price_range name kinds rating = "₹₹₹")
    ∧ (anyKeyword LUXURY_KEYWORDS (pyLower (name ++ " " ++ kinds)) = false →
       anyKeyword BUDGET_KEYWORDS (pyLower (name ++ " " ++ kinds)) = true →
        estimate_price_range name kinds rating = "₹")
    ∧ (anyKeyword LUXURY_KEYWORDS (pyLower (name ++ " " ++ kinds)) = false →
       anyKeyword BUDGET_KEYWORDS (pyLower (name ++ " " ++ kinds)) = false →
       anyKeyword MODERATE_KEYWORDS (pyLower (name ++ " " ++ kinds)) = true →
        estimate_price_range name kinds rating = "₹₹")
    ∧ (anyKeyword LUXURY_KEYWORDS (pyLower (name ++ " " ++ kinds)) = false →
       anyKeyword BUDGET_KEYWORDS (pyLower (name ++ " " ++ kinds)) = false →
       anyKeyword MODERATE_KEYWORDS (pyLower (name ++ " " ++ kinds)) = false →
        ((rating ≥ (4.5 : Rat) → estimate_price_range name kinds rating = "₹₹₹")
         ∧ ((4 : Rat) ≤ rating → rating < (4.5 : Rat) →
              estimate_price_range name kinds rating = "₹₹")
         ∧ (rating < (4 : Rat) → estimate_price_range name kinds rating = "₹"))) := by
  refine ⟨?_, ?_, ?_, ?_, ?_⟩
  · simp only [estimate_price_range]
    split_ifs <;> simp
  · intro h; simp [estimate_price_range, h]
  · intro h1 h2; simp [estimate_price_range, h1, h2]
  · intro h1 h2 h3; simp [estimate_price_range, h1, h2, h3]
  · intro h1 h2 h3
    refine ⟨?_, ?_, ?_⟩
    · intro h4; simp [estimate_price_range, h1, h2, h3, h4]
    · intro h4 h5
      simp [estimate_price_range, h1, h2, h3, h4, not_le.mpr h5]
    · intro h4
      have h5 : ¬ rating ≥ (4.5 : Rat) := by
        intro hc
        exact absurd (lt_of_lt_of_le h4 (by norm_num)) (not_lt.mpr hc)
      simp [estimate_price_range, h1, h2, h3, h5, not_le.mpr h4]

/-- C2 witness: the spec's own scenario, `name="Taj Mahal Palace Hotel"`,
`tags="luxury,heritage"` — a luxury keyword is present and the result is
`"₹₹₹"` even at rating 0. -/
theorem spec_C2_witness :
    anyKeyword LUXURY_KEYWORDS
        (pyLower ("Taj Mahal Palace Hotel" ++ " " ++ "luxury,heritage")) = true
    ∧ estimate_price_range "Taj Mahal Palace Hotel" "luxury,heritage" 0 = "₹₹₹" :=
  ⟨by decide,
   (spec_C2_price_precedence "Taj Mahal Palace Hotel" "luxury,heritage" 0).2.1
     (by decide)⟩

/-! ## Claim C7: classification is pure, total, first-match-wins -/

/-- C7: classification always returns a label from the closed label set of
the place kind, equals first-match-wins evaluation of the kind's ordered
rule table on the scanned text, answers `"default"` when no keyword of the
kind's table matches, and answers `"default"` for unknown place kinds. -/
theorem spec_C7_classify_total (place_kind name tags : String) :
    classify place_kind name tags ∈ labelSet place_kind
    ∧ classify place_kind name tags
        = firstMatch (rulesFor place_kind) (textFor place_kind name tags)
    ∧ ((∀ r ∈ rulesFor place_kind,
          anyKeyword r.2 (textFor place_kind name tags) = false) →
        classify place_kind name tags = "default")
    ∧ (place_kind ≠ "attraction" → place_kind ≠ "hotel" →
       place_kind ≠ "restaurant" → classify place_kind name tags = "default") := by
  have heq : classify place_kind name tags
      = firstMatch (rulesFor place_kind) (textFor place_kind name tags) := by
    by_cases h1 : place_kind = "attraction"
    · subst h1
      simp [classify, rulesFor, textFor, categorize_attraction_type,
        attractionRules, firstMatch]
    · by_cases h2 : place_kind = "hotel"
      · subst h2
        simp [classify, rulesFor, textFor, categorize_hotel_type,
          hotelRules, firstMatch]
      · by_cases h3 : place_kind = "restaurant"
        · subst h3
          simp [classify, rulesFor, textFor, categorize_restaurant_type,
            restaurantRules, firstMatch]
        · simp [classify, rulesFor, textFor, h1, h2, h3, firstMatch]
  refine ⟨?_, heq, ?_, ?_⟩
  · rw [heq]
    exact firstMatch_mem _ _
  · intro h
    rw [heq]
    exact firstMatch_eq_default _ _ h
  · intro h1 h2 h3
    simp [classify, h1, h2, h3]

/-- C7 witness: for the attraction kind and tag text matching no keyword,
every rule's keyword test is false and classification answers
`"default"`; also, an unknown place kind answers `"default"`. -/
theorem spec_C7_witness :
    (∀ r ∈ rulesFor "attraction", anyKeyword r.2 (textFor "attraction" "X" "foo") = false)
    ∧ classify "attraction" "X" "foo" = "default"
    ∧ classify "airport" "X" "historic" = "default" :=
  ⟨by decide,
   (spec_C7_classify_total "attraction" "X" "foo").2.2.1 (by decide),
   (spec_C7_classify_total "airport" "X" "historic").2.2.2 (by decide) (by decide)
     (by decide)⟩

/-! ## Claim C1: deterministic procedural rating -/

unseal Rat.ofScientific Rat.mul Rat.inv Rat.add Rat.sub in
/-- C1: `generate_rating` equals `round(3.5 + ((md5(name) mod 16) / 10), 1)`
with the 128-bit MD5 digest of the name read as an integer, repeated calls
with the same name agree, and the result is one of the 16 discrete values
`{3.5, 3.6, ..., 5.0}`. -/
theorem spec_C1_rating_deterministic (name : String) :
    generate_rating name
      = pyRound1 ((3.5 : Rat) + ((md5Int name % 16 : Nat) : Rat) / 10)
    ∧ (∀ name2 : String, name2 = name → generate_rating name2 = generate_rating name)
    ∧ generate_rating name ∈ ratingValues := by
  refine ⟨rfl, fun _ h => by rw [h], ?_⟩
  have hk : md5Int name % 16 < 16 := Nat.mod_lt _ (by norm_num)
  show pyRound1 ((3.5 : Rat) + ((md5Int name % 16 : Nat) : Rat) / 10) ∈ ratingValues
  generalize md5Int name % 16 = k at hk ⊢
  interval_cases k <;> decide

/-- C1 witness: the determinism clause applied at a concrete name, plus
the concrete rating of that name. -/
theorem spec_C1_witness :
    ("Eiffel Tower" : String) = "Eiffel Tower"
    ∧ generate_rating "Eiffel Tower" = generate_rating "Eiffel Tower"
    ∧ generate_rating "Eiffel Tower" ∈ ratingValues :=
  ⟨rfl, (spec_C1_rating_deterministic "Eiffel Tower").2.1 "Eiffel Tower" rfl,
   (spec_C1_rating_deterministic "Eiffel Tower").2.2⟩

/-! ## Claim C6: ranking is a stable descending sort -/

/-- The comparator `rank_places` hands to the stable sort is transitive. -/
theorem keyLE_trans (x y z : Rat × Nat) :
    keyLE x y = true → keyLE y z = true → keyLE x z = true := by
  simp only [keyLE, decide_eq_true_eq]
  rintro (h1 | ⟨h1, h1'⟩) (h2 | ⟨h2, h2'⟩)
  · exact Or.inl (lt_trans h1 h2)
  · exact Or.inl (h2 ▸ h1)
  · exact Or.inl (h1 ▸ h2)
  · exact Or.inr ⟨h1.trans h2, le_trans h1' h2'⟩

/-- The comparator `rank_places` hands to the stable sort is total. -/
theorem keyLE_total (x y : Rat × Nat) :
    (keyLE x y || keyLE y x) = true := by
  simp only [keyLE, Bool.or_eq_true, decide_eq_true_eq]
  rcases lt_trichotomy x.1 y.1 with h | h | h
  · exact Or.inl (Or.inl h)
  · rcases le_total x.2 y.2 with h2 | h2
    · exact Or.inl (Or.inr ⟨h, h2⟩)
    · exact Or.inr (Or.inr ⟨h.symm, h2⟩)
  · exact Or.inr (Or.inl h)

/-- C6: `rank_places` returns a permutation of its input that is
non-increasing in the `(rating, review_count-or-0)` key, and the sort is
stable: two records with equal keys appear in the output in their input
order. -/
theorem spec_C6_rank_stable_desc {α : Type} (key : α → Rat × Nat)
    (places : List α) :
    (rank_places key places).Perm places
    ∧ (rank_places key places).Pairwise (fun a b => keyLE (key b) (key a) = true)
    ∧ (∀ a b : α, key a = key b → [a, b].Sublist places →
        [a, b].Sublist (rank_places key places)) := by
  have trans : ∀ a b c : α, keyLE (key b) (key a) → keyLE (key c) (key b) →
      keyLE (key c) (key a) := fun a b c h1 h2 => keyLE_trans _ _ _ h2 h1
  have total : ∀ a b : α, (keyLE (key b) (key a) || keyLE (key a) (key b)) = true :=
    fun a b => keyLE_total _ _
  refine ⟨List.mergeSort_perm places _, ?_, ?_⟩
  · exact List.sorted_mergeSort trans total places
  · intro a b hab hsub
    have hle : keyLE (key b) (key a) = true := by
      simp [keyLE, hab]
    exact List.pair_sublist_mergeSort trans total hle hsub

/-- C6 witness: two records with equal keys keep their input order in the
ranked output. -/
theorem spec_C6_witness :
    (id ((3.5 : Rat), (0 : Nat)) = id ((3.5 : Rat), (0 : Nat)))
    ∧ [((3.5 : Rat), (0 : Nat)), ((3.5 : Rat), (0 : Nat))].Sublist
        [((3.5 : Rat), (0 : Nat)), ((3.5 : Rat), (0 : Nat))]
    ∧ [((3.5 : Rat), (0 : Nat)), ((3.5 : Rat), (0 : Nat))].Sublist
        (rank_places id [((3.5 : Rat), (0 : Nat)), ((3.5 : Rat), (0 : Nat))]) :=
  ⟨rfl, List.Sublist.refl _,
   (spec_C6_rank_stable_desc id [((3.5 : Rat), (0 : Nat)), ((3.5 : Rat), (0 : Nat))]).2.2
     _ _ rfl (List.Sublist.refl _)⟩

/-! ## Claims C4, C5, C9, C10: cache policy -/

/-- Upserting a key makes lookup of that key return the new document. -/
theorem lookupDoc_upsertDoc_self {α : Type} (store : List (String × CacheDoc α))
    (key : String) (doc : CacheDoc α) :
    lookupDoc (upsertDoc store key doc) key = some doc := by
  induction store with
  | nil => simp [upsertDoc, lookupDoc, List.find?]
  | cons kv rest ih =>
    by_cases h : kv.1 = key
    · simp [upsertDoc, h, lookupDoc, List.find?]
    · simpa [upsertDoc, h, lookupDoc, List.find?] using ih

/-- C4: writing a payload and reading the same city key back within the
24-hour TTL returns exactly that payload; the write is an upsert that
stores the payload under the normalized key with `cached_at` reset to the
write time; and reading a key that is not in the store misses. -/
theorem spec_C4_cache_roundtrip {α : Type} (store : List (String × CacheDoc α))
    (t0 t1 : Int) (city : String) (payload : α) :
    (t1 - t0 < ttlSeconds →
      get_cached_data true (cache_data true store t0 city payload) t1 city
        = some payload)
    ∧ lookupDoc (cache_data true store t0 city payload) (normalizeCity city)
        = some (CacheDoc.mk payload (some t0))
    ∧ (∀ now : Int, lookupDoc store (normalizeCity city) = none →
        get_cached_data true store now city = none) := by
  have hup : lookupDoc (cache_data true store t0 city payload) (normalizeCity city)
      = some (CacheDoc.mk payload (some t0)) := by
    simp only [cache_data, update_one, if_pos rfl]
    exact lookupDoc_upsertDoc_self store _ _
  refine ⟨?_, hup, ?_⟩
  · intro hfresh
    simp [get_cached_data, find_one, hup, hfresh]
  · intro now hmiss
    simp [get_cached_data, find_one, hmiss]

/-- C4 witness: round-trip on an empty store at write time 0 and read
time 3600, plus a miss for a key never written. -/
theorem spec_C4_witness :
    ((3600 : Int) - 0 < ttlSeconds
      ∧ get_cached_data true
          (cache_data true ([] : List (String × CacheDoc Nat)) 0 "Paris" 7) 3600 "Paris"
          = some 7)
    ∧ (lookupDoc ([] : List (String × CacheDoc Nat)) (normalizeCity "Delhi") = none
      ∧ get_cached_data true ([] : List (String × CacheDoc Nat)) 5 "Delhi" = none) :=
  ⟨⟨by decide, (spec_C4_cache_roundtrip [] 0 3600 "Paris" 7).1 (by decide)⟩,
   ⟨by decide, (spec_C4_cache_roundtrip [] 0 3600 "Delhi" (7 : Nat)).2.2 5 (by decide)⟩⟩

/-- C5: for a stored entry carrying a timestamp, a read returns the
payload exactly when fewer than 24 hours have elapsed; and the read is a
pure lookup: it hands back the store unchanged, the entry (expired or
not) still being found afterwards. -/
theorem spec_C5_ttl_expiry {α : Type} (store : List (String × CacheDoc α))
    (now : Int) (city : String) (doc : CacheDoc α) (t : Int)
    (hfound : lookupDoc store (normalizeCity city) = some doc)
    (ht : doc.cached_at = some t) :
    (get_cached_data true store now city = some doc.data ↔ now - t < ttlSeconds)
    ∧ (cacheRead true store now city).1 = store
    ∧ lookupDoc (cacheRead true store now city).1 (normalizeCity city) = some doc := by
  refine ⟨?_, rfl, hfound⟩
  have hval : get_cached_data true store now city
      = if now - t < ttlSeconds then some doc.data else none := by
    simp [get_cached_data, find_one, hfound, ht]
  rw [hval]
  by_cases h : now - t < ttlSeconds
  · simp [h]
  · simp [h]

/-- C5 witness: the spec's scenario — an entry cached at `T0 = 0` hits at
`T0 + 23h` and misses at `T0 + 25h` while remaining stored. -/
theorem spec_C5_witness :
    (lookupDoc [("paris", CacheDoc.mk (42 : Nat) (some 0))] (normalizeCity "paris")
        = some (CacheDoc.mk (42 : Nat) (some 0))
      ∧ (CacheDoc.mk (42 : Nat) (some 0)).cached_at = some 0)
    ∧ get_cached_data true [("paris", CacheDoc.mk (42 : Nat) (some 0))] 82800 "paris"
        = some 42
    ∧ get_cached_data true [("paris", CacheDoc.mk (42 : Nat) (some 0))] 90000 "paris"
        = none
    ∧ (cacheRead true [("paris", CacheDoc.mk (42 : Nat) (some 0))] 90000 "paris").1
        = [("paris", CacheDoc.mk (42 : Nat) (some 0))] :=
  ⟨⟨by decide, rfl⟩,
   ((spec_C5_ttl_expiry [("paris", CacheDoc.mk (42 : Nat) (some 0))] 82800 "paris"
        (CacheDoc.mk 42 (some 0)) 0 (by decide) rfl).1).mpr (by decide),
   by decide,
   (spec_C5_ttl_expiry [("paris", CacheDoc.mk (42 : Nat) (some 0))] 90000 "paris"
        (CacheDoc.mk 42 (some 0)) 0 (by decide) rfl).2.1⟩

/-- C9: a stored entry with no `cached_at` never expires — every read at
any time returns its payload. -/
theorem spec_C9_missing_timestamp_fresh {α : Type}
    (store : List (String × CacheDoc α)) (city : String) (doc : CacheDoc α)
    (hfound : lookupDoc store (normalizeCity city) = some doc)
    (ht : doc.cached_at = none) :
    ∀ now : Int, get_cached_data true store now city = some doc.data := by
  intro now
  simp [get_cached_data, find_one, hfound, ht]

/-- C9 witness: a legacy entry with no timestamp is returned even at a
read time far beyond any TTL. -/
theorem spec_C9_witness :
    (lookupDoc [("goa", CacheDoc.mk (3 : Nat) none)] (normalizeCity "goa")
        = some (CacheDoc.mk (3 : Nat) none)
      ∧ (CacheDoc.mk (3 : Nat) none).cached_at = none)
    ∧ get_cached_data true [("goa", CacheDoc.mk (3 : Nat) none)] 1000000000 "goa"
        = some 3 :=
  ⟨⟨by decide, rfl⟩,
   spec_C9_missing_timestamp_fresh [("goa", CacheDoc.mk (3 : Nat) none)] "goa"
     (CacheDoc.mk 3 none) (by decide) rfl 1000000000⟩

/-- C10: cache failures never propagate — a failing write is swallowed
(the call returns the store unchanged, never an error), a successful
write is the upsert, and a failing read reports a plain miss. -/
theorem spec_C10_failures_swallowed {α : Type}
    (store : List (String × CacheDoc α)) (now : Int) (city : String) (data : α) :
    (∀ ok : Bool, cache_data ok store now city data
        = if ok then upsertDoc store (normalizeCity city) (CacheDoc.mk data (some now))
          else store)
    ∧ cache_data false store now city data = store
    ∧ get_cached_data false store now city = none := by
  refine ⟨?_, rfl, rfl⟩
  intro ok
  cases ok <;> rfl

/-! ## Claim C3: the pipeline enriches with the raw rating 0 -/

/-- The rating suffix is empty at the raw rating 0. -/
theorem ratingSuffix_zero : ratingSuffix 0 = "" := by
  norm_num [ratingSuffix]

/-- At rating 0 (what the pipeline passes), `generate_insight` returns the
bare selected template for the three known categories — the rating suffix
is never appended — and the fixed generic sentence otherwise. -/
theorem generate_insight_rating_zero (pyHash : String → Nat)
    (name category kinds : String) :
    ((category = "attractions" ∨ category = "hotels" ∨ category = "restaurants") →
      generate_insight pyHash name category kinds 0
        = pyChoice (pyHash name % 10000) (insightPool name category kinds))
    ∧ (¬(category = "attractions" ∨ category = "hotels" ∨ category = "restaurants") →
      generate_insight pyHash name category kinds 0
        = "A great place to visit and explore.") := by
  constructor
  · intro h
    simp [generate_insight, h, ratingSuffix_zero]
  · intro h
    simp [generate_insight, h]

/-- C3: every place the search pipeline formats comes from a fetched raw
place whose rating field is 0, so the price estimate and the insight are
computed at rating 0: the price falls back to `"₹"` whenever no price
keyword matches, the insight never carries a rating suffix, and only the
output record's `rating` field holds `generate_rating(name)`. -/
theorem spec_C3_pipeline_rating_zero (pyHash : String → Nat) (category : String)
    (features : List GeoProps) (p : FormattedPlace)
    (hp : p ∈ format_place_data pyHash (features.filterMap fetchPlaceOfFeature)
            category) :
    ∃ r : RawPlace, r ∈ features.filterMap fetchPlaceOfFeature
      ∧ r.rating = 0
      ∧ p = formatOne pyHash category r
      ∧ p.price_range = estimate_price_range r.name r.kinds 0
      ∧ p.rating = generate_rating r.name
      ∧ ratingSuffix r.rating = ""
      ∧ ((category = "attractions" ∨ category = "hotels" ∨ category = "restaurants") →
          p.ai_insight
            = pyChoice (pyHash r.name % 10000) (insightPool r.name category r.kinds))
      ∧ (¬(category = "attractions" ∨ category = "hotels" ∨ category = "restaurants") →
          p.ai_insight = "A great place to visit and explore.")
      ∧ (anyKeyword LUXURY_KEYWORDS (pyLower (r.name ++ " " ++ r.kinds)) = false →
         anyKeyword BUDGET_KEYWORDS (pyLower (r.name ++ " " ++ r.kinds)) = false →
         anyKeyword MODERATE_KEYWORDS (pyLower (r.name ++ " " ++ r.kinds)) = false →
          p.price_range = "₹") := by
  have hp2 : p ∈ (features.filterMap fetchPlaceOfFeature).filterMap
      (fun place => if place.name = "" then none
        else some (formatOne pyHash category place)) := by
    unfold format_place_data rank_places at hp
    exact (List.mergeSort_perm _ _).mem_iff.mp hp
  rw [List.mem_filterMap] at hp2
  obtain ⟨r, hrmem, hr⟩ := hp2
  have hrname : ¬ r.name = "" := by
    by_contra hc
    simp [hc] at hr
  rw [if_neg hrname, Option.some.injEq] at hr
  have hr0 : r.rating = 0 := by
    rw [List.mem_filterMap] at hrmem
    obtain ⟨props, _, hprops⟩ := hrmem
    simp only [fetchPlaceOfFeature] at hprops
    by_cases hn : props.name = ""
    · simp [hn] at hprops
    · rw [if_neg hn, Option.some.injEq] at hprops
      rw [← hprops]
  refine ⟨r, hrmem, hr0, hr.symm, ?_, ?_, ?_, ?_, ?_, ?_⟩
  · rw [← hr]
    show estimate_price_range r.name r.kinds r.rating = _
    rw [hr0]
  · rw [← hr]
    rfl
  · rw [hr0]
    exact ratingSuffix_zero
  · intro hcat
    rw [← hr]
    show generate_insight pyHash r.name category r.kinds r.rating = _
    rw [hr0]
    exact (generate_insight_rating_zero pyHash r.name category r.kinds).1 hcat
  · intro hcat
    rw [← hr]
    show generate_insight pyHash r.name category r.kinds r.rating = _
    rw [hr0]
    exact (generate_insight_rating_zero pyHash r.name category r.kinds).2 hcat
  · intro h1 h2 h3
    rw [← hr]
    show estimate_price_range r.name r.kinds r.rating = _
    rw [hr0]
    simp [estimate_price_range, h1, h2, h3]
    norm_num

/-- C3 witness: a single fetched feature (name matching no price keyword)
flows through the pipeline; the hypothesis — membership of its formatted
record in the pipeline output — is discharged concretely. -/
theorem spec_C3_witness :
    (formatOne (fun _ => 0) "attractions"
        (RawPlace.mk "Blue Lagoon" "tourism" 0 0 none none))
      ∈ format_place_data (fun _ => 0)
          ([GeoProps.mk "Blue Lagoon" ["tourism"] 0 none none].filterMap
            fetchPlaceOfFeature)
          "attractions"
    ∧ ∃ r : RawPlace,
        r ∈ [GeoProps.mk "Blue Lagoon" ["tourism"] 0 none none].filterMap
              fetchPlaceOfFeature
        ∧ r.rating = 0
        ∧ (formatOne (fun _ => 0) "attractions"
            (RawPlace.mk "Blue Lagoon" "tourism" 0 0 none none))
          = formatOne (fun _ => 0) "attractions" r
        ∧ (formatOne (fun _ => 0) "attractions"
            (RawPlace.mk "Blue Lagoon" "tourism" 0 0 none none)).price_range
          = estimate_price_range r.name r.kinds 0
        ∧ (formatOne (fun _ => 0) "attractions"
            (RawPlace.mk "Blue Lagoon" "tourism" 0 0 none none)).rating
          = generate_rating r.name
        ∧ ratingSuffix r.rating = ""
        ∧ (("attractions" : String) = "attractions" ∨ ("attractions" : String) = "hotels"
            ∨ ("attractions" : String) = "restaurants" →
            (formatOne (fun _ => 0) "attractions"
              (RawPlace.mk "Blue Lagoon" "tourism" 0 0 none none)).ai_insight
              = pyChoice ((fun _ => 0) r.name % 10000)
                  (insightPool r.name "attractions" r.kinds))
        ∧ (¬(("attractions" : String) = "attractions"
             ∨ ("attractions" : String) = "hotels"
             ∨ ("attractions" : String) = "restaurants") →
            (formatOne (fun _ => 0) "attractions"
              (RawPlace.mk "Blue Lagoon" "tourism" 0 0 none none)).ai_insight
              = "A great place to visit and explore.")
        ∧ (anyKeyword LUXURY_KEYWORDS (pyLower (r.name ++ " " ++ r.kinds)) = false →
           anyKeyword BUDGET_KEYWORDS (pyLower (r.name ++ " " ++ r.kinds)) = false →
           anyKeyword MODERATE_KEYWORDS (pyLower (r.name ++ " " ++ r.kinds)) = false →
            (formatOne (fun _ => 0) "attractions"
              (RawPlace.mk "Blue Lagoon" "tourism" 0 0 none none)).price_range
              = "₹") := by
  have hi : String.intercalate "," ["tourism"] = "tourism" := rfl
  have hmem : (formatOne (fun _ => 0) "attractions"
        (RawPlace.mk "Blue Lagoon" "tourism" 0 0 none none))
      ∈ format_place_data (fun _ => 0)
          ([GeoProps.mk "Blue Lagoon" ["tourism"] 0 none none].filterMap
            fetchPlaceOfFeature)
          "attractions" := by
    unfold format_place_data rank_places
    simp [fetchPlaceOfFeature, hi, List.mergeSort_singleton]
  exact ⟨hmem,
    spec_C3_pipeline_rating_zero (fun _ => 0) "attractions"
      [GeoProps.mk "Blue Lagoon" ["tourism"] 0 none none]
      (formatOne (fun _ => 0) "attractions"
        (RawPlace.mk "Blue Lagoon" "tourism" 0 0 none none)) hmem⟩

/-! ## Claim C8: deterministic template selection -/

/-- An insight dictionary lookup is nonempty as soon as the table carries a
nonempty `'default'` pool and all its pools are nonempty. -/
theorem insightsGet_ne_nil (table : List (String × List String)) (key : String)
    (hdefault : ∃ kv ∈ table, kv.1 = "default" ∧ kv.2 ≠ [])
    (hall : ∀ kv ∈ table, kv.2 ≠ []) :
    insightsGet table key ≠ [] := by
  unfold insightsGet
  cases hfind : table.find? (fun kv => kv.1 = key) with
  | some kv => exact hall kv (List.mem_of_find?_eq_some hfind)
  | none =>
    cases hfind2 : table.find? (fun kv => kv.1 = "default") with
    | some kv2 => exact hall kv2 (List.mem_of_find?_eq_some hfind2)
    | none =>
      exfalso
      rw [List.find?_eq_none] at hfind2
      obtain ⟨kv0, hkv0mem, hkey, _⟩ := hdefault
      exact hfind2 kv0 hkv0mem (by simp [hkey])

/-- For the three known categories the selected template pool is nonempty. -/
theorem insightPool_ne_nil (name category kinds : String)
    (hcat : category = "attractions" ∨ category = "hotels"
      ∨ category = "restaurants") :
    insightPool name category kinds ≠ [] := by
  rcases hcat with h | h | h <;> subst h <;> simp only [insightPool] <;>
    exact insightsGet_ne_nil _ _ (by decide) (by decide)

unseal Rat.ofScientific Rat.mul Rat.inv Rat.add Rat.sub in
/-- C8: the base sentence is selected from the category's pool by a
deterministic pseudo-random selector seeded from the name's hash — two
calls whose process hash agrees on the name give the same insight, the
base is always an element of the selected pool (the rating only appends a
suffix), and names with different hashes can select different templates. -/
theorem spec_C8_insight_deterministic (pyHash1 pyHash2 : String → Nat)
    (name category kinds : String) (rating : Rat) :
    (pyHash1 name = pyHash2 name →
      generate_insight pyHash1 name category kinds rating
        = generate_insight pyHash2 name category kinds rating)
    ∧ ((category = "attractions" ∨ category = "hotels"
        ∨ category = "restaurants") →
        ∃ base ∈ insightPool name category kinds,
          generate_insight pyHash1 name category kinds rating
            = base ++ ratingSuffix rating)
    ∧ generate_insight String.length "" "attractions" "" 0
        ≠ generate_insight String.length "a" "attractions" "" 0 := by
  refine ⟨?_, ?_, ?_⟩
  · intro h
    simp [generate_insight, h]
  · intro hcat
    refine ⟨pyChoice (pyHash1 name % 10000) (insightPool name category kinds),
      pyChoice_mem _ _ (insightPool_ne_nil name category kinds hcat), ?_⟩
    simp [generate_insight, hcat]
  · decide

/-- C8 witness: the determinism and pool-membership clauses applied at a
concrete hash function, name, and category. -/
theorem spec_C8_witness :
    ((fun _ : String => 7) "Qutub Minar" = (fun _ : String => 7) "Qutub Minar"
      ∧ generate_insight (fun _ => 7) "Qutub Minar" "attractions" "historic" 0
          = generate_insight (fun _ => 7) "Qutub Minar" "attractions" "historic" 0)
    ∧ (("attractions" : String) = "attractions" ∨ ("attractions" : String) = "hotels"
        ∨ ("attractions" : String) = "restaurants")
    ∧ ∃ base ∈ insightPool "Qutub Minar" "attractions" "historic",
        generate_insight (fun _ => 7) "Qutub Minar" "attractions" "historic" 0
          = base ++ ratingSuffix 0 :=
  ⟨⟨rfl,
    (spec_C8_insight_deterministic (fun _ => 7) (fun _ => 7) "Qutub Minar"
      "attractions" "historic" 0).1 rfl⟩,
   Or.inl rfl,
   (spec_C8_insight_deterministic (fun _ => 7) (fun _ => 7) "Qutub Minar"
      "attractions" "historic" 0).2.1 (Or.inl rfl)⟩
